import Mathlib

/-!
Verification of the MSO Go client core (`client` package of the repository):
retrying executor `DoWithRetryFunc`/`Do`, backoff policy `backoff`,
`Authenticate`, `GetVersion`/`CompareVersion` and `MakeRestRequest`.

The Go code is shallowly embedded: the `Client` struct becomes a Lean
structure, stateful methods become explicit state-passing functions, and the
environment (HTTP transport, JSON parsing outcomes, random source) is
supplied as explicit parameters so that every definition is executable.
Machine integers are modelled as `Int`/`Nat` (no overflow is reachable in the
modelled code paths: counters only increment) and `float64` arithmetic of the
backoff formula is modelled over `ℚ`.
-/

/-- Auth models the stored session token (`AuthToken *Auth` in the Go
`Client` struct); only the token string matters for the verified claims. -/
structure Auth where
  token : String
deriving DecidableEq, Repr

/-- Client mirrors the configuration and mutable state fields of the Go
`Client` struct (resource_mso_schema_site_service_graph.go lines 389-408)
that the verified operations read or write.  `maxRetries`,
`backoffMinDelay`, `backoffMaxDelay` are Go `int` (modelled as `ℤ`);
`backoffDelayFactor` is `float64` (modelled as `ℚ`). -/
structure Client where
  baseURL : String
  username : String
  password : String
  insecure : Bool
  proxyUrl : String
  domain : String
  platform : String
  version : String
  skipLoggingPayload : Bool
  maxRetries : ℤ
  backoffMinDelay : ℤ
  backoffMaxDelay : ℤ
  backoffDelayFactor : ℚ
  authToken : Option Auth
deriving DecidableEq, Repr

/-- DefaultBackoffMinDelay mirrors `const DefaultBackoffMinDelay int = 4`. -/
def DefaultBackoffMinDelay : ℤ := 4

/-- DefaultBackoffMaxDelay mirrors `const DefaultBackoffMaxDelay int = 60`. -/
def DefaultBackoffMaxDelay : ℤ := 60

/-- DefaultBackoffDelayFactor mirrors `const DefaultBackoffDelayFactor
float64 = 3`. -/
def DefaultBackoffDelayFactor : ℚ := 3

/-- effectiveBackoffMin mirrors lines 842-845 of `backoff`: the configured
`backoffMinDelay` when nonzero, else the default (units: seconds; the source
multiplies by `time.Second`, a constant scale). -/
def effectiveBackoffMin (c : Client) : ℚ :=
  if c.backoffMinDelay = 0 then (DefaultBackoffMinDelay : ℚ)
  else (c.backoffMinDelay : ℚ)

/-- effectiveBackoffMax mirrors lines 847-850 of `backoff`. -/
def effectiveBackoffMax (c : Client) : ℚ :=
  if c.backoffMaxDelay = 0 then (DefaultBackoffMaxDelay : ℚ)
  else (c.backoffMaxDelay : ℚ)

/-- effectiveBackoffFactor mirrors lines 852-855 of `backoff`. -/
def effectiveBackoffFactor (c : Client) : ℚ :=
  if c.backoffDelayFactor = 0 then DefaultBackoffDelayFactor
  else c.backoffDelayFactor

/-- computeDelay mirrors lines 857-863 of `backoff`:
`backoff := min * factor^attempts`, clamped to `maxDelay`, then
`(rand.Float64()/2+0.5)*(backoff-min) + min`.  `ρ` models the value drawn
from `rand.Float64()` (in `[0,1)`). -/
def computeDelay (attempts : ℕ) (minDelay maxDelay factor ρ : ℚ) : ℚ :=
  (ρ / 2 + 1 / 2) *
      ((if minDelay * factor ^ attempts > maxDelay then maxDelay
        else minDelay * factor ^ attempts) - minDelay)
    + minDelay

/-- backoffOk mirrors the budget test of `backoff` (lines 835-840): the
method returns `false` without sleeping when `attempts > c.maxRetries`, and
otherwise sleeps once and returns `true`. -/
def backoffOk (maxRetries : ℤ) (attempts : ℕ) : Bool :=
  decide ((attempts : ℤ) ≤ maxRetries)

/-- Resp models one HTTP response as the retry loop observes it: the status
code, whether `ioutil.ReadAll` succeeded, whether `container.ParseJSON` of
the body succeeds, and the value of the caller retry predicate on the parsed
payload. -/
structure Resp where
  status : ℕ
  readOk : Bool
  parses : Bool
  predRetry : Bool
deriving DecidableEq, Repr

/-- DoErr models the error value returned by `DoWithRetryFunc`:
`transport` is the underlying network error (line 759), `httpStatus s a` is
the formatted error of line 823 carrying the status code and the attempt
count, and `readError` is a body-read error surfaced at line 831. -/
inductive DoErr where
  | transport : DoErr
  | httpStatus : ℕ → ℕ → DoErr
  | readError : DoErr
deriving DecidableEq, Repr

/-- DoResult models the tuple `(payload, response, error)` returned by
`DoWithRetryFunc`, recording only presence of the payload/response, plus
instrumentation: the number of backoff sleeps performed and the number of
HTTP attempts made. -/
structure DoResult where
  hasPayload : Bool
  hasResp : Bool
  err : Option DoErr
  sleeps : ℕ
  attempts : ℕ
deriving DecidableEq, Repr

/-- doWithRetry embeds the loop of `DoWithRetryFunc` (lines 743-833).  The
script lists the outcome of each successive `httpClient.Do` call (`none` =
transport error); the two counters are the running attempt number (started
at 1 by the caller) and the number of sleeps so far.  Returns `none` only if
the script is shorter than the run it drives. -/
def doWithRetry (maxRetries : ℤ) (hasRetryFunc : Bool) :
    List (Option Resp) → ℕ → ℕ → Option DoResult
  | [], _, _ => none
  | none :: rest, attempts, sleeps =>
      if backoffOk maxRetries attempts then
        doWithRetry maxRetries hasRetryFunc rest (attempts + 1) (sleeps + 1)
      else some ⟨false, false, some .transport, sleeps, attempts⟩
  | some r :: rest, attempts, sleeps =>
      if r.status = 204 then some ⟨false, false, none, sleeps, attempts⟩
      else if 200 ≤ r.status ∧ r.status < 300 then
        if r.parses then
          if hasRetryFunc && r.predRetry then
            if backoffOk maxRetries attempts then
              doWithRetry maxRetries hasRetryFunc rest (attempts + 1)
                (sleeps + 1)
            else some ⟨true, true, some (.httpStatus r.status attempts),
              sleeps, attempts⟩
          else some ⟨true, true, none, sleeps, attempts⟩
        else
          if backoffOk maxRetries attempts then
            doWithRetry maxRetries hasRetryFunc rest (attempts + 1)
              (sleeps + 1)
          else some ⟨false, true, some (.httpStatus r.status attempts),
            sleeps, attempts⟩
      else if r.status = 429 ∨ r.status = 503 then
        if backoffOk maxRetries attempts then
          doWithRetry maxRetries hasRetryFunc rest (attempts + 1) (sleeps + 1)
        else some ⟨false, true, some (.httpStatus r.status attempts),
          sleeps, attempts⟩
      else some ⟨false, true, if r.readOk then none else some .readError,
        sleeps, attempts⟩

/-- Do mirrors `func (c *Client) Do(req)` (lines 739-741): it runs
`DoWithRetryFunc` with a nil retry callback, attempts starting at 1. -/
def Do (maxRetries : ℤ) (script : List (Option Resp)) : Option DoResult :=
  doWithRetry maxRetries false script 1 0

/-- resp200 is a concrete successful response: HTTP 200, readable body that
parses as JSON, retry predicate false. -/
def resp200 : Resp := ⟨200, true, true, false⟩

/-- resp404 is a concrete non-retryable response: HTTP 404 with a readable
body. -/
def resp404 : Resp := ⟨404, true, true, false⟩

/-- resp503 is a concrete retryable response: HTTP 503 with a readable
body that does not parse as JSON. -/
def resp503 : Resp := ⟨503, true, false, false⟩

/-- resp200bad is a concrete HTTP 200 response whose body fails to parse as
JSON (the retryable malformed-success-body outcome). -/
def resp200bad : Resp := ⟨200, true, false, false⟩

/-- stripQuotesChars implements the quote trimming of `stripQuotes` on the
character list of the string: when the first and the last character are
both a double quote, drop them. -/
def stripQuotesChars (cs : List Char) : List Char :=
  if cs.head? = some '"' ∧ cs.getLast? = some '"' then (cs.drop 1).dropLast
  else cs

/-- stripQuotes mirrors `stripQuotes` (lines 870-875): remove one leading
and one trailing double quote when both are present
(`strings.HasPrefix`/`HasSuffix` guard, then `TrimPrefix` and
`TrimSuffix`). -/
def stripQuotes (word : String) : String := ⟨stripQuotesChars word.data⟩

/-- DoAuthOutcome models the result of the `c.Do(req)` call inside
`Authenticate` (line 629): `doErr` is a non-nil error, `doOk obj` a
successful exchange where `obj = none` models a nil container and
`obj = some raw` carries `obj.S("token").String()`, the raw token field
text of the response body. -/
inductive DoAuthOutcome where
  | doErr : DoAuthOutcome
  | doOk : Option String → DoAuthOutcome
deriving DecidableEq, Repr

/-- AuthEnv supplies the outcomes of the external calls `Authenticate`
makes: whether `container.ParseJSON` of the formatted login payload
succeeds (line 605), the result of `GetDomainId` (line 614; `none` = error),
whether `MakeRestRequest` succeeds (line 624), and the outcome of
`c.Do(req)` (line 629). -/
structure AuthEnv where
  payloadParses : Bool
  domainIdOk : Option String
  makeRequestOk : Bool
  doOutcome : DoAuthOutcome
deriving DecidableEq, Repr

/-- AuthErr labels the error returns of `Authenticate`, one per `return`
site (payload parse line 607, domain lookup line 616, request build line
626, Do error line 632, empty response line 636, invalid credentials line
643). -/
inductive AuthErr where
  | payloadParse : AuthErr
  | domainLookup : AuthErr
  | buildRequest : AuthErr
  | doError : AuthErr
  | emptyResponse : AuthErr
  | invalidCredentials : AuthErr
deriving DecidableEq, Repr

/-- authExchange embeds lines 622-652 of `Authenticate`: set
`skipLoggingPayload` to true, build the login request (failure returns with
the flag still true), run `Do`, reset the flag to false unconditionally
right after `Do` returns (line 630), then check the response and the
extracted token; `models.StripQuotes` of the token field is modelled by the
identical local `stripQuotes`, applied again (line 649) before storing. -/
def authExchange (c : Client) (env : AuthEnv) : Client × Option AuthErr :=
  let c2 := { c with skipLoggingPayload := true }
  if env.makeRequestOk = false then (c2, some .buildRequest)
  else
    match env.doOutcome with
    | .doErr => ({ c2 with skipLoggingPayload := false }, some .doError)
    | .doOk none =>
        ({ c2 with skipLoggingPayload := false }, some .emptyResponse)
    | .doOk (some raw) =>
        let c3 := { c2 with skipLoggingPayload := false }
        let token := stripQuotes raw
        if token = "" ∨ token = "\x7b\x7d" then (c3, some .invalidCredentials)
        else ({ c3 with authToken := some ⟨stripQuotes token⟩ }, none)

/-- Authenticate embeds `func (c *Client) Authenticate()` (lines 591-653):
on the "nd" platform an empty domain is replaced by "DefaultAuth" (lines
596-601); the login payload must parse (line 605); on the classic platform
a nonempty domain is resolved through `GetDomainId`, whose failure aborts
(lines 610-620); then the exchange of `authExchange` runs. -/
def Authenticate (c : Client) (env : AuthEnv) : Client × Option AuthErr :=
  let c1 :=
    if c.platform = "nd" ∧ c.domain = "" then { c with domain := "DefaultAuth" }
    else c
  if env.payloadParses = false then (c1, some .payloadParse)
  else if c1.domain ≠ "" ∧ c1.platform ≠ "nd" ∧ env.domainIdOk = none then
    (c1, some .domainLookup)
  else authExchange c1 env

/-- VersionEnv supplies the outcomes of the external calls `GetVersion`
makes: whether `MakeRestRequest` succeeds (line 690), whether `c.Do`
succeeds (line 695), whether `CheckForErrors` passes (line 700), and the
raw text of `obj.Search("version").String()` (line 705). -/
structure VersionEnv where
  requestOk : Bool
  doOk : Bool
  checkOk : Bool
  rawVersion : String
deriving DecidableEq, Repr

/-- GetVersion embeds `func (c *Client) GetVersion()` (lines 689-711): each
failing step returns an error leaving the client unchanged; on success the
quoted-stripped version is cached in `c.version` and returned. -/
def GetVersion (c : Client) (env : VersionEnv) : Client × Except String String :=
  if env.requestOk = false then (c, .error "request build failed")
  else if env.doOk = false then (c, .error "request failed")
  else if env.checkOk = false then (c, .error "response reported errors")
  else
    let v := stripQuotes env.rawVersion
    if v = "" then (c, .error "Unable to identify version")
    else ({ c with version := v }, .ok v)

/-- splitDots splits a character list at every '.' (helper for the modelled
version parsing); it always returns a nonempty list of segments. -/
def splitDots : List Char → List (List Char)
  | [] => [[]]
  | c :: rest =>
      match splitDots rest with
      | [] => [[]]
      | seg :: segs =>
          if c = '.' then [] :: seg :: segs else (c :: seg) :: segs

/-- charDigit maps a decimal digit character to its value. -/
def charDigit (c : Char) : ℕ := c.toNat - 48

/-- parseNatSeg reads one nonempty all-digit segment as a natural number. -/
def parseNatSeg (cs : List Char) : Option ℕ :=
  if cs ≠ [] ∧ cs.all Char.isDigit then
    some (cs.foldl (fun acc c => acc * 10 + charDigit c) 0)
  else none

/-- parseVersion models `version.NewVersion` of the hashicorp/go-version
dependency, restricted to the numeric dotted fragment the repository
feeds it: a version string parses when every dot-separated segment is a
nonempty run of digits, yielding the list of numeric segments. -/
def parseVersion (s : String) : Option (List ℕ) :=
  let segs := splitDots s.data
  if (segs.map parseNatSeg).all Option.isSome then
    some (segs.map fun g => (parseNatSeg g).getD 0)
  else none

/-- segCompare models `Version.Compare` of the hashicorp/go-version
dependency on numeric segments: segmentwise three-way comparison, missing
trailing segments treated as zero; returns -1, 0 or 1 as the first version
is smaller, equal or larger. -/
def segCompare : List ℕ → List ℕ → ℤ
  | [], [] => 0
  | [], b :: bs => if 0 < b then -1 else segCompare [] bs
  | a :: as, [] => if 0 < a then 1 else segCompare as []
  | a :: as, b :: bs =>
      if a < b then -1 else if b < a then 1 else segCompare as bs

/-- compareVersionAfter embeds lines 719-732 of `CompareVersion`, run on
the client state after the lazy `GetVersion` of line 717: reject the
"unknown" sentinel, parse the cached and the target version, and return
`v2.Compare(v1)` — target compared to cached. -/
def compareVersionAfter (c1 : Client) (v : String) :
    Client × Except String ℤ :=
  if c1.version = "unknown" then (c1, .error "Could not retrieve version")
  else
    match parseVersion c1.version with
    | none => (c1, .error "Could not parse retrieved version")
    | some v1 =>
        match parseVersion v with
        | none => (c1, .error "Could not parse version")
        | some v2 => (c1, .ok (segCompare v2 v1))

/-- CompareVersion embeds `func (c *Client) CompareVersion(v)` (lines
713-733): when no version is cached `GetVersion` runs first (its error is
ignored, only its state effect kept, line 717), then the comparison of
`compareVersionAfter` runs on the resulting state. -/
def CompareVersion (c : Client) (env : VersionEnv) (v : String) :
    Client × Except String ℤ :=
  compareVersionAfter (if c.version = "" then (GetVersion c env).1 else c) v

/-- dropLeadingSlash removes one leading '/' when present (the
`strings.HasPrefix` guard of line 551-553). -/
def dropLeadingSlash (s : String) : String :=
  match s.data with
  | '/' :: rest => ⟨rest⟩
  | _ => s

/-- ndPath mirrors the path rewriting of `MakeRestRequest` (lines 550-555):
on the "nd" platform every non-login path loses a leading slash and gains
the "mso/" gateway segment. -/
def ndPath (c : Client) (path : String) : String :=
  if c.platform = "nd" ∧ path ≠ "/login" then "mso/" ++ dropLeadingSlash path
  else path

/-- RestReq models the built `*http.Request`: method, resolved path,
whether a body buffer was attached, and whether the PATCH-only
`validate=false` query parameter was forced. -/
structure RestReq where
  method : String
  urlPath : String
  hasBody : Bool
  validateFalse : Bool
deriving DecidableEq, Repr

/-- RestResult models the outcomes of `MakeRestRequest`: URL parse error
(line 557), the unguarded `body.Bytes()` evaluation on a nil body (line
570 — the source has no nil-body branch for non-GET/DELETE methods),
`http.NewRequest` error (line 572), auth-header injection error (line 581),
or a built request. -/
inductive RestResult where
  | urlError : RestResult
  | nilBodyDeref : RestResult
  | newRequestError : RestResult
  | authError : RestResult
  | ok : RestReq → RestResult
deriving DecidableEq, Repr

/-- RestEnv supplies the outcomes of the external calls of
`MakeRestRequest`: `url.Parse`, `http.NewRequest`, and
`InjectAuthenticationHeader`. -/
structure RestEnv where
  urlOk : Bool
  newRequestOk : Bool
  authOk : Bool
deriving DecidableEq, Repr

/-- finishRequest embeds lines 572-588 of `MakeRestRequest`: the
`http.NewRequest` error check, then auth-header injection when requested. -/
def finishRequest (method p : String) (hasBody vf authenticated : Bool)
    (env : RestEnv) : RestResult :=
  if env.newRequestOk = false then .newRequestError
  else if authenticated ∧ env.authOk = false then .authError
  else .ok ⟨method, p, hasBody, vf⟩

/-- MakeRestRequest embeds `func (c *Client) MakeRestRequest` (lines
549-588): nd-gateway path rewriting, URL parsing, the `validate=false`
override for PATCH, then request construction — GET and DELETE attach no
body (`http.NewRequest(method, url, nil)`), every other method evaluates
`body.Bytes()`, which on a nil body is the unguarded dereference
`nilBodyDeref`. -/
def MakeRestRequest (c : Client) (method path : String) (body : Option Unit)
    (authenticated : Bool) (env : RestEnv) : RestResult :=
  let p := ndPath c path
  if env.urlOk = false then .urlError
  else
    let vf := decide (method = "PATCH")
    if method = "GET" ∨ method = "DELETE" then
      finishRequest method p false vf authenticated env
    else
      match body with
      | none => .nilBodyDeref
      | some _ => finishRequest method p true vf authenticated env

/-- c4client is a concrete classic-platform client with a cached token. -/
def c4client : Client :=
  ⟨"https://mso.example", "admin", "pw", false, "", "", "mso", "3.7", false,
    2, 0, 0, 0, some ⟨"oldtoken"⟩⟩

/-- c9client is a concrete client constructed with SkipLoggingPayload
(true). -/
def c9client : Client :=
  ⟨"https://mso.example", "admin", "pw", false, "", "", "mso", "3.7", true,
    2, 0, 0, 0, none⟩

/-- c4env is a concrete environment whose login exchange succeeds and whose
response carries the token field text `""`. -/
def c4env : AuthEnv := ⟨true, none, true, .doOk (some "\"\"")⟩

/-- c5client is a concrete nd-platform client constructed with
SkipLoggingPayload(true) and an empty login domain. -/
def c5client : Client :=
  ⟨"https://nd.example", "admin", "pw", false, "", "", "nd", "3.7", true,
    2, 0, 0, 0, none⟩

/-- c5env is a concrete environment whose login exchange succeeds with a
valid token. -/
def c5env : AuthEnv := ⟨true, none, true, .doOk (some "tok123")⟩

/-- c8client is a concrete client with cached version "3.1". -/
def c8client : Client :=
  ⟨"https://mso.example", "admin", "pw", false, "", "", "mso", "3.1", false,
    2, 0, 0, 0, none⟩

/-- vEnvOk is a concrete version environment answering "4.0". -/
def vEnvOk : VersionEnv := ⟨true, true, true, "\"4.0\""⟩

/-- rEnvOk is a concrete request environment where every external step
succeeds. -/
def rEnvOk : RestEnv := ⟨true, true, true⟩

/-! ## Theorems -/

lemma doWithRetry_retryable_exhausts (hf : Bool) (r : Resp)
    (hst : r.status = 429 ∨ r.status = 503) :
    ∀ (j a s : ℕ) (maxR : ℤ), (a : ℤ) + j = maxR + 1 →
      doWithRetry maxR hf (List.replicate (j + 1) (some r)) a s
        = some ⟨false, true, some (.httpStatus r.status (a + j)),
            s + j, a + j⟩ := by
  have hn204 : r.status ≠ 204 := by omega
  have hn2xx : ¬(200 ≤ r.status ∧ r.status < 300) := by omega
  intro j
  induction j with
  | zero =>
      intro a s maxR ha
      have hbk : backoffOk maxR a = false := by
        simp only [backoffOk, decide_eq_false_iff_not, not_le]
        omega
      simp [doWithRetry, hn204, hn2xx, hst, hbk]
  | succ j ih =>
      intro a s maxR ha
      have hbk : backoffOk maxR a = true := by
        simp only [backoffOk, decide_eq_true_eq]
        omega
      rw [List.replicate_succ]
      have hstep :
          doWithRetry maxR hf (some r :: List.replicate (j + 1) (some r)) a s
            = doWithRetry maxR hf (List.replicate (j + 1) (some r))
                (a + 1) (s + 1) := by
        simp [doWithRetry, hn204, hn2xx, hst, hbk]
      rw [hstep, ih (a + 1) (s + 1) maxR (by push_cast; omega)]
      have h1 : a + 1 + j = a + (j + 1) := by omega
      have h2 : s + 1 + j = s + (j + 1) := by omega
      rw [h1, h2]

/-- C2: with maxRetries = n ≥ 1 and every attempt answered by HTTP 503 (or
429), the executor performs exactly n backoff sleeps and n+1 HTTP attempts
and returns a non-nil error carrying the status code and the attempt count
n+1; the same single attempt counter starting at 1 is shared with the
transport-failure path — replacing the first status response by a transport
failure consumes the same budget and yields the same attempt count. -/
theorem do_retryable_status_exhausts_budget (n : ℕ) (hf : Bool) (r : Resp)
    (hn : 1 ≤ n) (hst : r.status = 429 ∨ r.status = 503) :
    doWithRetry (n : ℤ) hf (List.replicate (n + 1) (some r)) 1 0
      = some ⟨false, true, some (.httpStatus r.status (n + 1)), n, n + 1⟩
    ∧ doWithRetry (n : ℤ) hf (none :: List.replicate n (some r)) 1 0
      = some ⟨false, true, some (.httpStatus r.status (n + 1)), n, n + 1⟩ := by
  obtain ⟨m, rfl⟩ : ∃ m, n = m + 1 := ⟨n - 1, by omega⟩
  constructor
  · have := doWithRetry_retryable_exhausts hf r hst (m + 1) 1 0 ((m : ℤ) + 1)
      (by push_cast; omega)
    push_cast
    rw [this]
    have h1 : 1 + (m + 1) = m + 1 + 1 := by omega
    have h2 : 0 + (m + 1) = m + 1 := by omega
    rw [h1, h2]
  · have hbk : backoffOk ((m : ℤ) + 1) 1 = true := by
      simp only [backoffOk, decide_eq_true_eq]
      omega
    have hstep :
        doWithRetry ((m : ℤ) + 1) hf
            (none :: List.replicate (m + 1) (some r)) 1 0
          = doWithRetry ((m : ℤ) + 1) hf
              (List.replicate (m + 1) (some r)) 2 1 := by
      simp [doWithRetry, hbk]
    push_cast
    rw [hstep, doWithRetry_retryable_exhausts hf r hst m 2 1 ((m : ℤ) + 1)
      (by push_cast; omega)]
    have h1 : 2 + m = m + 1 + 1 := by omega
    have h2 : 1 + m = m + 1 := by omega
    rw [h1, h2]

/-- C2 witness: the budget theorem instantiated at maxRetries = 2 and the
always-503 response. -/
theorem do_retryable_status_exhausts_budget_witness :
    1 ≤ 2
    ∧ (resp503.status = 429 ∨ resp503.status = 503)
    ∧ (doWithRetry (2 : ℤ) false (List.replicate 3 (some resp503)) 1 0
        = some ⟨false, true, some (.httpStatus resp503.status 3), 2, 3⟩
      ∧ doWithRetry (2 : ℤ) false (none :: List.replicate 2 (some resp503)) 1 0
        = some ⟨false, true, some (.httpStatus resp503.status 3), 2, 3⟩) :=
  ⟨by decide, by decide,
    do_retryable_status_exhausts_budget 2 false resp503 (by decide)
      (by decide)⟩

/-- C1 counterexample: a request answered by HTTP 404 on the first attempt
(body read successfully).  The executor terminates at once but returns a
nil error together with a nil payload — refuting the claim that every
non-2xx/204/429/503 response yields a non-nil formatted error and that the
executor never returns both a nil payload and a nil error. -/
theorem do404_returns_nil_error :
    doWithRetry 3 false [some resp404] 1 0
      = some ⟨false, true, none, 0, 1⟩ := by
  decide

/-- C1 amended: for a response whose status is not 2xx, not 204, not 429
and not 503, the executor terminates immediately at the current attempt
with no backoff sleep and no payload, returning only the body-read error —
which is nil when the body was read successfully, so the caller can receive
a nil payload together with a nil error. -/
theorem do_nonretryable_status_terminates (rest : List (Option Resp))
    (maxR : ℤ) (hf : Bool) (a s : ℕ) (r : Resp)
    (h204 : r.status ≠ 204)
    (h2xx : ¬(200 ≤ r.status ∧ r.status < 300))
    (h429 : r.status ≠ 429) (h503 : r.status ≠ 503) :
    doWithRetry maxR hf (some r :: rest) a s
      = some ⟨false, true, if r.readOk then none else some .readError,
          s, a⟩ := by
  simp [doWithRetry, h204, h2xx, h429, h503]

/-- C1 amended witness: the 404 response instantiating the amended
theorem. -/
theorem do_nonretryable_status_terminates_witness :
    resp404.status ≠ 204
    ∧ ¬(200 ≤ resp404.status ∧ resp404.status < 300)
    ∧ resp404.status ≠ 429
    ∧ resp404.status ≠ 503
    ∧ doWithRetry 7 true [some resp404] 1 0
      = some ⟨false, true, if resp404.readOk then none else some .readError,
          0, 1⟩ :=
  ⟨by decide, by decide, by decide, by decide,
    do_nonretryable_status_terminates [] 7 true 1 0 resp404
      (by decide) (by decide) (by decide) (by decide)⟩

/-- C6 counterexample: with the max-retries option left unset (zero value
0), a first-attempt HTTP 503 terminates the loop immediately — the next
scripted response, a successful 200, is never consumed — refuting the claim
that a retryable outcome does not terminate the loop after the first
attempt. -/
theorem do_unset_max_retries_stops_immediately :
    doWithRetry 0 false [some resp503, some resp200] 1 0
      = some ⟨false, true, some (.httpStatus 503 1), 0, 1⟩ := by
  decide

/-- C6 amended: when the max-retries option is left unset its zero value is
used, and the executor's only bound is the attempt counter exceeding it;
with maxRetries = 0 that bound triggers on the first attempt, so every
retryable outcome — transport error, 429/503 status, or malformed 2xx
body — terminates the loop after exactly one attempt with no backoff
sleep. -/
theorem do_zero_max_retries_one_attempt (rest : List (Option Resp))
    (hf : Bool) (r : Resp)
    (hst : r.status = 429 ∨ r.status = 503) (r2 : Resp)
    (h2a : 200 ≤ r2.status) (h2b : r2.status < 300) (h2n : r2.status ≠ 204)
    (h2p : r2.parses = false) :
    doWithRetry 0 hf (none :: rest) 1 0
      = some ⟨false, false, some .transport, 0, 1⟩
    ∧ doWithRetry 0 hf (some r :: rest) 1 0
      = some ⟨false, true, some (.httpStatus r.status 1), 0, 1⟩
    ∧ doWithRetry 0 hf (some r2 :: rest) 1 0
      = some ⟨false, true, some (.httpStatus r2.status 1), 0, 1⟩ := by
  have hbk : backoffOk 0 1 = false := by decide
  have hn204 : r.status ≠ 204 := by omega
  have hn2xx : ¬(200 ≤ r.status ∧ r.status < 300) := by omega
  exact ⟨by simp [doWithRetry, hbk],
    by simp [doWithRetry, hbk, hn204, hn2xx, hst],
    by simp [doWithRetry, hbk, h2n, h2a, h2b, h2p]⟩

/-- C6 amended witness: the zero-budget theorem instantiated at a 503
response and a malformed-body 200 response. -/
theorem do_zero_max_retries_one_attempt_witness :
    (resp503.status = 429 ∨ resp503.status = 503)
    ∧ 200 ≤ resp200bad.status
    ∧ resp200bad.status < 300
    ∧ resp200bad.status ≠ 204
    ∧ resp200bad.parses = false
    ∧ (doWithRetry 0 true ([none] : List (Option Resp)) 1 0
        = some ⟨false, false, some .transport, 0, 1⟩
      ∧ doWithRetry 0 true [some resp503] 1 0
        = some ⟨false, true, some (.httpStatus resp503.status 1), 0, 1⟩
      ∧ doWithRetry 0 true [some resp200bad] 1 0
        = some ⟨false, true, some (.httpStatus resp200bad.status 1), 0, 1⟩) :=
  ⟨by decide, by decide, by decide, by decide, by decide,
    do_zero_max_retries_one_attempt [] true resp503 (by decide) resp200bad
      (by decide) (by decide) (by decide) (by decide)⟩

/-- C7: a first response of HTTP 200 whose body parses as JSON, with no
caller retry predicate (or a predicate answering false), completes in
exactly one HTTP attempt with no backoff sleep, returning the payload, the
response metadata and a nil error — whatever responses would have followed
and whatever the retry budget. -/
theorem do200_single_attempt (rest : List (Option Resp)) (maxR : ℤ)
    (hf : Bool) (r : Resp) (hst : r.status = 200) (hp : r.parses = true)
    (hpred : hf = false ∨ r.predRetry = false) :
    doWithRetry maxR hf (some r :: rest) 1 0
      = some ⟨true, true, none, 0, 1⟩ := by
  have hcb : (hf && r.predRetry) = false := by
    rcases hpred with h | h <;> simp [h]
  simp [doWithRetry, hst, hp, hcb]

/-- C7 witness: a scripted 200 response with a live retry callback that
answers false, budget 5. -/
theorem do200_single_attempt_witness :
    resp200.status = 200
    ∧ resp200.parses = true
    ∧ (true = false ∨ resp200.predRetry = false)
    ∧ doWithRetry 5 true [some resp200, some resp503] 1 0
      = some ⟨true, true, none, 0, 1⟩ :=
  ⟨by decide, by decide, by decide,
    do200_single_attempt [some resp503] 5 true resp200
      (by decide) (by decide) (by decide)⟩

lemma one_le_qpow (q : ℚ) (hq : 1 ≤ q) (n : ℕ) : 1 ≤ q ^ n := by
  induction n with
  | zero => simp
  | succ k ih =>
      rw [pow_succ]
      nlinarith

/-- C3: for every attempt count, every 0 < minDelay ≤ maxDelay, factor ≥ 1
and random draw ρ ∈ [0,1], the delay computed by the backoff policy equals
minDelay + r·(min(minDelay·factor^a, maxDelay) − minDelay) for some
r ∈ [1/2, 1], and lies within [minDelay, maxDelay]; with all three backoff
options unset the defaults min = 4 s, max = 60 s, factor = 3 are used. -/
theorem computeDelay_in_bounds (a : ℕ) (minD maxD factor ρ : ℚ)
    (hmin : 0 < minD) (hle : minD ≤ maxD) (hfac : 1 ≤ factor)
    (hρ0 : 0 ≤ ρ) (hρ1 : ρ ≤ 1) :
    (∃ r, 1 / 2 ≤ r ∧ r ≤ 1 ∧
      computeDelay a minD maxD factor ρ
        = minD + r * (min (minD * factor ^ a) maxD - minD))
    ∧ minD ≤ computeDelay a minD maxD factor ρ
    ∧ computeDelay a minD maxD factor ρ ≤ maxD
    ∧ (∀ c : Client, c.backoffMinDelay = 0 → c.backoffMaxDelay = 0 →
        c.backoffDelayFactor = 0 →
        effectiveBackoffMin c = 4 ∧ effectiveBackoffMax c = 60
          ∧ effectiveBackoffFactor c = 3) := by
  have hpow : (1 : ℚ) ≤ factor ^ a := one_le_qpow factor hfac a
  have hraw : minD ≤ minD * factor ^ a := by nlinarith
  have hclamp :
      (if minD * factor ^ a > maxD then maxD else minD * factor ^ a)
        = min (minD * factor ^ a) maxD := by
    rcases lt_or_le maxD (minD * factor ^ a) with h | h
    · rw [if_pos h, min_eq_right h.le]
    · rw [if_neg (not_lt.mpr h), min_eq_left h]
  have hd : computeDelay a minD maxD factor ρ
      = (ρ / 2 + 1 / 2) * (min (minD * factor ^ a) maxD - minD) + minD := by
    rw [computeDelay, hclamp]
  have hclb : minD ≤ min (minD * factor ^ a) maxD := le_min hraw hle
  have hcub : min (minD * factor ^ a) maxD ≤ maxD := min_le_right _ _
  have hspan : 0 ≤ min (minD * factor ^ a) maxD - minD := by linarith
  refine ⟨⟨ρ / 2 + 1 / 2, by linarith, by linarith, by rw [hd]; ring⟩,
    ?_, ?_, ?_⟩
  · rw [hd]
    nlinarith
  · rw [hd]
    nlinarith
  · intro c h1 h2 h3
    refine ⟨?_, ?_, ?_⟩
    · simp [effectiveBackoffMin, h1, DefaultBackoffMinDelay]
    · simp [effectiveBackoffMax, h2, DefaultBackoffMaxDelay]
    · simp [effectiveBackoffFactor, h3, DefaultBackoffDelayFactor]

/-- C3 witness: the bounds theorem instantiated at attempt 2 with the
default parameters min = 4, max = 60, factor = 3 and random draw 1/2. -/
theorem computeDelay_in_bounds_witness :
    (0 : ℚ) < 4 ∧ (4 : ℚ) ≤ 60 ∧ (1 : ℚ) ≤ 3 ∧ (0 : ℚ) ≤ 1 / 2
    ∧ (1 / 2 : ℚ) ≤ 1
    ∧ ((∃ r, 1 / 2 ≤ r ∧ r ≤ 1 ∧
        computeDelay 2 4 60 3 (1 / 2)
          = 4 + r * (min ((4 : ℚ) * 3 ^ 2) 60 - 4))
      ∧ (4 : ℚ) ≤ computeDelay 2 4 60 3 (1 / 2)
      ∧ computeDelay 2 4 60 3 (1 / 2) ≤ 60
      ∧ (∀ c : Client, c.backoffMinDelay = 0 → c.backoffMaxDelay = 0 →
          c.backoffDelayFactor = 0 →
          effectiveBackoffMin c = 4 ∧ effectiveBackoffMax c = 60
            ∧ effectiveBackoffFactor c = 3)) :=
  ⟨by norm_num, by norm_num, by norm_num, by norm_num, by norm_num,
    computeDelay_in_bounds 2 4 60 3 (1 / 2) (by norm_num) (by norm_num)
      (by norm_num) (by norm_num) (by norm_num)⟩

lemma Authenticate_reaches_exchange (c : Client) (env : AuthEnv)
    (hp : env.payloadParses = true)
    (hd : c.platform = "nd" ∨ c.domain = "" ∨ env.domainIdOk ≠ none) :
    Authenticate c env
      = authExchange
          (if c.platform = "nd" ∧ c.domain = ""
            then { c with domain := "DefaultAuth" } else c) env := by
  unfold Authenticate
  by_cases hnd : c.platform = "nd" ∧ c.domain = ""
  · simp [hnd, hp, hnd.1]
  · simp only [hnd, if_false, hp]
    rcases hd with h | h | h
    · simp [h]
    · simp [hnd, h]
    · simp [h]

lemma authExchange_invalid (c : Client) (env : AuthEnv) (raw : String)
    (hm : env.makeRequestOk = true) (hdo : env.doOutcome = .doOk (some raw))
    (ht : stripQuotes raw = "" ∨ stripQuotes raw = "\x7b\x7d") :
    authExchange c env
      = ({ c with skipLoggingPayload := false }, some .invalidCredentials) := by
  unfold authExchange
  rw [hm, hdo]
  simp [ht]

/-- C4: when the login exchange succeeds but the extracted token field
strips to the empty string or to the placeholder, Authenticate returns the
invalid-credentials error and the stored AuthToken is exactly what it was
before the call. -/
theorem Authenticate_invalid_token (c : Client) (env : AuthEnv) (raw : String)
    (hp : env.payloadParses = true)
    (hd : c.platform = "nd" ∨ c.domain = "" ∨ env.domainIdOk ≠ none)
    (hm : env.makeRequestOk = true)
    (hdo : env.doOutcome = .doOk (some raw))
    (ht : stripQuotes raw = "" ∨ stripQuotes raw = "\x7b\x7d") :
    (Authenticate c env).2 = some .invalidCredentials
    ∧ (Authenticate c env).1.authToken = c.authToken := by
  rw [Authenticate_reaches_exchange c env hp hd,
    authExchange_invalid _ env raw hm hdo ht]
  by_cases hnd : c.platform = "nd" ∧ c.domain = "" <;> simp [hnd]

/-- C4 witness: a classic-platform client receiving the token field
literally `""` (which strips to the empty string). -/
theorem Authenticate_invalid_token_witness :
    c4env.payloadParses = true
    ∧ (c4client.platform = "nd" ∨ c4client.domain = ""
        ∨ c4env.domainIdOk ≠ none)
    ∧ c4env.makeRequestOk = true
    ∧ c4env.doOutcome = .doOk (some "\"\"")
    ∧ (stripQuotes "\"\"" = "" ∨ stripQuotes "\"\"" = "\x7b\x7d")
    ∧ ((Authenticate c4client c4env).2 = some .invalidCredentials
      ∧ (Authenticate c4client c4env).1.authToken = c4client.authToken) :=
  ⟨by decide, by decide, by decide, by decide, by decide,
    Authenticate_invalid_token c4client c4env "\"\"" (by decide) (by decide)
      (by decide) (by decide) (by decide)⟩

/-- C9: Authenticate sets the payload-logging suppression flag before the
login exchange and resets it to false unconditionally right after the
exchange, overwriting — not restoring — whatever the flag was at
construction; when building the login request fails, Authenticate returns
with the flag left at true. -/
theorem Authenticate_flag_effects (c : Client) (env : AuthEnv)
    (hp : env.payloadParses = true)
    (hd : c.platform = "nd" ∨ c.domain = "" ∨ env.domainIdOk ≠ none) :
    (env.makeRequestOk = false →
      (Authenticate c env).1.skipLoggingPayload = true)
    ∧ (env.makeRequestOk = true →
      (Authenticate c env).1.skipLoggingPayload = false) := by
  rw [Authenticate_reaches_exchange c env hp hd]
  set c1 := if c.platform = "nd" ∧ c.domain = ""
    then { c with domain := "DefaultAuth" } else c with hc1
  constructor
  · intro hm
    simp [authExchange, hm]
  · intro hm
    unfold authExchange
    rw [hm]
    cases hdo : env.doOutcome with
    | doErr => simp
    | doOk o =>
        cases o with
        | none => simp
        | some raw =>
            by_cases ht : stripQuotes raw = "" ∨ stripQuotes raw = "\x7b\x7d"
              <;> simp [ht]

/-- C9 witness: a client constructed with payload logging suppressed
(flag true) still ends with the flag false after an Authenticate call that
reaches the exchange. -/
theorem Authenticate_flag_effects_witness :
    c4env.payloadParses = true
    ∧ (c9client.platform = "nd" ∨ c9client.domain = ""
        ∨ c4env.domainIdOk ≠ none)
    ∧ ((c4env.makeRequestOk = false →
        (Authenticate c9client c4env).1.skipLoggingPayload = true)
      ∧ (c4env.makeRequestOk = true →
        (Authenticate c9client c4env).1.skipLoggingPayload = false)) :=
  ⟨by decide, by decide,
    Authenticate_flag_effects c9client c4env (by decide) (by decide)⟩

/-- C5 counterexample: a client constructed with SkipLoggingPayload(true),
platform "nd" and an empty login domain.  A successful Authenticate call
leaves the payload-logging suppression flag false and the login domain
"DefaultAuth" — both configuration fields set via named construction
options were modified, refuting the immutability claim. -/
theorem Authenticate_mutates_config :
    (Authenticate c5client c5env).1.skipLoggingPayload = false
    ∧ (Authenticate c5client c5env).1.domain = "DefaultAuth"
    ∧ c5client.skipLoggingPayload = true
    ∧ c5client.domain = "" := by
  decide

lemma compareVersionAfter_fst (c1 : Client) (t : String) :
    (compareVersionAfter c1 t).1 = c1 := by
  unfold compareVersionAfter
  split_ifs with h
  · rfl
  · cases hp1 : parseVersion c1.version with
    | none => rfl
    | some v1 =>
        cases hp2 : parseVersion t with
        | none => rfl
        | some v2 => rfl

lemma CompareVersion_fst (c : Client) (venv : VersionEnv) (t : String) :
    (CompareVersion c venv t).1
      = if c.version = "" then (GetVersion c venv).1 else c := by
  unfold CompareVersion
  rw [compareVersionAfter_fst]

/-- C5 amended: configuration immutability holds only outside the three
fields the operations deliberately write — Authenticate overwrites the
payload-logging suppression flag and (on the nd platform with an empty
domain) the login domain, and GetVersion (also when triggered lazily by
CompareVersion) overwrites the cached version; every other configuration
field (base URL, username, password, insecure flag, proxy URL, platform,
max retries, backoff min/max/factor — and for Authenticate also the
version) is unmodified by Authenticate, GetVersion and CompareVersion. -/
theorem config_immutable_outside_written_fields (c : Client) (env : AuthEnv)
    (venv : VersionEnv) (t : String) :
    ((Authenticate c env).1.baseURL = c.baseURL
      ∧ (Authenticate c env).1.username = c.username
      ∧ (Authenticate c env).1.password = c.password
      ∧ (Authenticate c env).1.insecure = c.insecure
      ∧ (Authenticate c env).1.proxyUrl = c.proxyUrl
      ∧ (Authenticate c env).1.platform = c.platform
      ∧ (Authenticate c env).1.version = c.version
      ∧ (Authenticate c env).1.maxRetries = c.maxRetries
      ∧ (Authenticate c env).1.backoffMinDelay = c.backoffMinDelay
      ∧ (Authenticate c env).1.backoffMaxDelay = c.backoffMaxDelay
      ∧ (Authenticate c env).1.backoffDelayFactor = c.backoffDelayFactor)
    ∧ ((GetVersion c venv).1.baseURL = c.baseURL
      ∧ (GetVersion c venv).1.username = c.username
      ∧ (GetVersion c venv).1.password = c.password
      ∧ (GetVersion c venv).1.insecure = c.insecure
      ∧ (GetVersion c venv).1.proxyUrl = c.proxyUrl
      ∧ (GetVersion c venv).1.domain = c.domain
      ∧ (GetVersion c venv).1.platform = c.platform
      ∧ (GetVersion c venv).1.skipLoggingPayload = c.skipLoggingPayload
      ∧ (GetVersion c venv).1.maxRetries = c.maxRetries
      ∧ (GetVersion c venv).1.backoffMinDelay = c.backoffMinDelay
      ∧ (GetVersion c venv).1.backoffMaxDelay = c.backoffMaxDelay
      ∧ (GetVersion c venv).1.backoffDelayFactor = c.backoffDelayFactor)
    ∧ ((CompareVersion c venv t).1.baseURL = c.baseURL
      ∧ (CompareVersion c venv t).1.username = c.username
      ∧ (CompareVersion c venv t).1.password = c.password
      ∧ (CompareVersion c venv t).1.insecure = c.insecure
      ∧ (CompareVersion c venv t).1.proxyUrl = c.proxyUrl
      ∧ (CompareVersion c venv t).1.domain = c.domain
      ∧ (CompareVersion c venv t).1.platform = c.platform
      ∧ (CompareVersion c venv t).1.skipLoggingPayload = c.skipLoggingPayload
      ∧ (CompareVersion c venv t).1.maxRetries = c.maxRetries
      ∧ (CompareVersion c venv t).1.backoffMinDelay = c.backoffMinDelay
      ∧ (CompareVersion c venv t).1.backoffMaxDelay = c.backoffMaxDelay
      ∧ (CompareVersion c venv t).1.backoffDelayFactor
          = c.backoffDelayFactor) := by
  obtain ⟨pp, dio, mro, dout⟩ := env
  refine ⟨?_, ?_, ?_⟩
  · cases dout with
    | doErr =>
        simp only [Authenticate, authExchange]
        split_ifs <;> simp
    | doOk o =>
        cases o with
        | none =>
            simp only [Authenticate, authExchange]
            split_ifs <;> simp
        | some raw =>
            simp only [Authenticate, authExchange]
            split_ifs <;> simp
  · simp only [GetVersion]
    split_ifs <;> simp
  · rw [CompareVersion_fst]
    split_ifs with hv
    · simp only [GetVersion]
      split_ifs <;> simp
    · simp

lemma segCompare_self : ∀ l : List ℕ, segCompare l l = 0 := by
  intro l
  induction l with
  | nil => simp [segCompare]
  | cons a as ih => simp [segCompare, ih]

lemma segCompare_bump (a : ℕ) (l : List ℕ) :
    segCompare ((a + 1) :: l) (a :: l) = 1 := by
  unfold segCompare
  rw [if_neg (by omega), if_pos (by omega)]

lemma parseVersion_empty : parseVersion "" = none := by decide

lemma parseVersion_unknown : parseVersion "unknown" = none := by decide

/-- C8: with a parseable cached version, CompareVersion(target) returns the
three-way comparison of the target against the cached version
(`compare(target, cached)`): comparing the cached version against itself
returns 0; any target whose segments bump the major component of the cached
version returns 1; a strictly smaller target returns -1. -/
theorem CompareVersion_sign (c : Client) (venv : VersionEnv) (pv : List ℕ)
    (t : String) (pt : List ℕ)
    (hc : parseVersion c.version = some pv)
    (ht : parseVersion t = some pt) :
    (CompareVersion c venv t).2 = .ok (segCompare pt pv)
    ∧ (CompareVersion c venv c.version).2 = .ok 0
    ∧ (∀ hd tl, pv = hd :: tl → pt = (hd + 1) :: tl →
        (CompareVersion c venv t).2 = .ok 1)
    ∧ (segCompare pt pv = -1 → (CompareVersion c venv t).2 = .ok (-1)) := by
  have hne : c.version ≠ "" := by
    intro h
    rw [h, parseVersion_empty] at hc
    exact Option.noConfusion hc
  have hnu : c.version ≠ "unknown" := by
    intro h
    rw [h, parseVersion_unknown] at hc
    exact Option.noConfusion hc
  have hgen : ∀ (s : String) (ps : List ℕ), parseVersion s = some ps →
      (CompareVersion c venv s).2 = .ok (segCompare ps pv) := by
    intro s ps hs
    unfold CompareVersion compareVersionAfter
    rw [if_neg hne]
    rw [if_neg hnu, hc, hs]
  refine ⟨hgen t pt ht, ?_, ?_, ?_⟩
  · rw [hgen c.version pv hc, segCompare_self]
  · intro hd tl hpv hpt
    rw [hgen t pt ht, hpv, hpt, segCompare_bump]
  · intro hneg
    rw [hgen t pt ht, hneg]

/-- C8 witness: cached version "3.1"; the target "3.1" compares equal, the
major-bumped target "4.1" compares larger. -/
theorem CompareVersion_sign_witness :
    parseVersion c8client.version = some [3, 1]
    ∧ parseVersion "4.1" = some [4, 1]
    ∧ ((CompareVersion c8client vEnvOk "4.1").2
          = .ok (segCompare [4, 1] [3, 1])
      ∧ (CompareVersion c8client vEnvOk c8client.version).2 = .ok 0
      ∧ (∀ hd tl, [3, 1] = hd :: tl → [4, 1] = (hd + 1) :: tl →
          (CompareVersion c8client vEnvOk "4.1").2 = .ok 1)
      ∧ (segCompare [4, 1] [3, 1] = -1 →
          (CompareVersion c8client vEnvOk "4.1").2 = .ok (-1))) :=
  ⟨by decide, by decide,
    CompareVersion_sign c8client vEnvOk [3, 1] "4.1" [4, 1] (by decide)
      (by decide)⟩

/-- C10: MakeRestRequest has no nil-body branch for methods other than GET
and DELETE — a nil body flows straight into the `body.Bytes()` evaluation
(the unguarded dereference) — while for GET and DELETE a nil body is always
accepted and the built request carries no body. -/
theorem MakeRestRequest_nil_body (c : Client) (method path : String)
    (auth : Bool) (env : RestEnv)
    (hurl : env.urlOk = true) (hreq : env.newRequestOk = true)
    (hauth : env.authOk = true)
    (hget : method ≠ "GET") (hdel : method ≠ "DELETE") :
    MakeRestRequest c method path none auth env = .nilBodyDeref
    ∧ MakeRestRequest c "GET" path none auth env
        = .ok ⟨"GET", ndPath c path, false, false⟩
    ∧ MakeRestRequest c "DELETE" path none auth env
        = .ok ⟨"DELETE", ndPath c path, false, false⟩ := by
  have hmethod : ¬(method = "GET" ∨ method = "DELETE") := by
    rintro (h | h)
    · exact hget h
    · exact hdel h
  refine ⟨?_, ?_, ?_⟩
  · simp [MakeRestRequest, hurl, hmethod]
  · simp [MakeRestRequest, finishRequest, hurl, hreq, hauth]
  · simp [MakeRestRequest, finishRequest, hurl, hreq, hauth]

/-- C10 witness: a POST with nil body reaches the dereference; GET and
DELETE with nil body build body-less requests. -/
theorem MakeRestRequest_nil_body_witness :
    rEnvOk.urlOk = true
    ∧ rEnvOk.newRequestOk = true
    ∧ rEnvOk.authOk = true
    ∧ "POST" ≠ "GET"
    ∧ "POST" ≠ "DELETE"
    ∧ (MakeRestRequest c4client "POST" "/api/v1/schemas" none true rEnvOk
          = .nilBodyDeref
      ∧ MakeRestRequest c4client "GET" "/api/v1/schemas" none true rEnvOk
          = .ok ⟨"GET", ndPath c4client "/api/v1/schemas", false, false⟩
      ∧ MakeRestRequest c4client "DELETE" "/api/v1/schemas" none true rEnvOk
          = .ok ⟨"DELETE", ndPath c4client "/api/v1/schemas", false, false⟩) :=
  ⟨by decide, by decide, by decide, by decide, by decide,
    MakeRestRequest_nil_body c4client "POST" "/api/v1/schemas" true rEnvOk
      (by decide) (by decide) (by decide) (by decide) (by decide)⟩
